import Mathlib

/-!
Verification of the Inventory & Transaction Engine of the `kasir`
point-of-sale application.

The engine's data model and operations are embedded shallowly:

* `DaftarBarang` is the StockItem record (raw purchase inputs plus the
  derived pricing fields).
* `calculate_prices` is the derived-pricing computation, translated from
  `tests/factories.py` (`DaftarBarangFactory.calculate_prices`), which
  matches §4.1 of the specification.
* `DaftarTransaksi` / `ListProductTransaksi` are the transaction header
  and line-item records.
* `sell` is the TransactionProcessor step of §4.2 of the specification.
  The repository ships only the tests of the engine, so `sell` is
  modelled from the specification's algorithm, with every behaviour the
  repository's tests pin down reproduced exactly (see its doc comment).

Money amounts are modelled as rationals (`ℚ`): the source uses Python
`Decimal` fixed-point arithmetic, whose additions and multiplications on
the values appearing here are exact, so `ℚ` represents them faithfully.
Quantities are modelled as `Int`, as the source's integer fields admit
negative values (see `tests/test_models.py::test_barang_with_negative_stock`).
-/

/-- StockItem record (`cashier.models.DaftarBarang`): raw inputs
`jumlah_produk` (quantity on hand), `unit_produk`, `harga_beli_satuan`
(purchase unit price), `laba_persen` (profit margin percent), and the
derived fields `subtotal_harga_beli` (purchase total), `harga_jual_satuan`
(sale unit price), `subtotal_harga_jual` (sale total). -/
structure DaftarBarang where
  user : Nat
  nama_product : String
  jumlah_produk : Int
  unit_produk : Int
  harga_beli_satuan : ℚ
  laba_persen : Int
  subtotal_harga_beli : ℚ
  harga_jual_satuan : ℚ
  subtotal_harga_jual : ℚ
deriving DecidableEq

/-- Derived-pricing computation, translated from
`tests/factories.py::DaftarBarangFactory.calculate_prices`:

    obj.subtotal_harga_beli = obj.jumlah_produk * obj.harga_beli_satuan
    obj.harga_jual_satuan   = obj.harga_beli_satuan * (1 + obj.laba_persen / 100)
    laba                    = obj.laba_persen * obj.subtotal_harga_beli / 100
    obj.subtotal_harga_jual = laba + obj.subtotal_harga_beli

This is the `recompute` pure function of §4.1 of the specification. -/
def calculate_prices (b : DaftarBarang) : DaftarBarang :=
  let stb : ℚ := (b.jumlah_produk : ℚ) * b.harga_beli_satuan
  let hjs : ℚ := b.harga_beli_satuan * (1 + (b.laba_persen : ℚ) / 100)
  let laba : ℚ := (b.laba_persen : ℚ) * stb / 100
  { b with
    subtotal_harga_beli := stb
    harga_jual_satuan := hjs
    subtotal_harga_jual := laba + stb }

/-- Transaction header (`cashier.models.DaftarTransaksi`): `produk_jumlah`
is the nullable aggregate count field (default `None` per
`tests/test_models.py::test_transaksi_default_values`), `total` the running
total (default 0). -/
structure DaftarTransaksi where
  nomor : Nat
  user : Nat
  produk_jumlah : Option Int
  total : ℚ
deriving DecidableEq

/-- Transaction line item (`cashier.models.ListProductTransaksi`): the
product name is a snapshot string, `subtotal` is frozen at sale time. -/
structure ListProductTransaksi where
  transaksi_id : Nat
  nama_barang : String
  quantity : Int
  subtotal : ℚ
deriving DecidableEq

/-- A transaction together with its current line items. -/
structure TxState where
  tx : DaftarTransaksi
  items : List ListProductTransaksi
deriving DecidableEq

/-- Outcome taxonomy of the `sell` operation (§4.2 / §7 of the
specification): `Success{line_item}`, `InvalidQuantity`, `ItemNotFound`,
`InsufficientStock`. -/
inductive SellOutcome where
  | success (li : ListProductTransaksi)
  | invalidQuantity
  | itemNotFound
  | insufficientStock
deriving DecidableEq

/-- StockItem storage: an association list keyed by the item's `nomor`
(primary key). -/
abbrev Store := List (Nat × DaftarBarang)

/-- Look up a StockItem by primary key (`DaftarBarang.objects.filter(nomor=ref)`). -/
def lookupBarang : Store → Nat → Option DaftarBarang
  | [], _ => none
  | (k, b) :: rest, ref => if k = ref then some b else lookupBarang rest ref

/-- Persist an updated StockItem under its existing key (`product.save()`). -/
def updateBarang : Store → Nat → DaftarBarang → Store
  | [], _, _ => []
  | (k, b) :: rest, ref, b' =>
    if k = ref then (k, b') :: rest else (k, b) :: updateBarang rest ref b'

/-- Delete a StockItem from storage (`product.delete()`). -/
def eraseBarang : Store → Nat → Store
  | [], _ => []
  | (k, b) :: rest, ref => if k = ref then rest else (k, b) :: eraseBarang rest ref

/-- Modelled from the spec: the `sell` operation of §4.2
(`TransaksiProductListForm.save` together with the Cart view's aggregate
update; `cashier/forms.py` and `cashier/views.py` are not shipped in the
repository, only their tests are). Steps, in the specified order:

1. reject a non-positive `requested_quantity` (`InvalidQuantity`) before
   any stock access;
2. resolve the StockItem reference (`ItemNotFound` on failure);
3. fail with `InsufficientStock`, mutating nothing, when
   `requested_quantity > quantity_on_hand`;
4. capture `sale_unit_price` before any mutation and compute
   `subtotal = sale_unit_price × requested_quantity`;
5. delete the StockItem when the remaining quantity is 0, otherwise
   persist it with the remaining quantity and all derived pricing fields
   recomputed by `calculate_prices`;
6. append the line item and add `subtotal` to the transaction's total.

The `produk_jumlah` aggregate update follows the repository's test
`tests/test_views.py::test_cart_post_successful_transaction`, which fixes
`produk_jumlah = 10` after a single line item of quantity 10: the field
accumulates the sold quantity (initialised from null as 0). -/
def sell (store : Store) (ts : TxState) (ref : Nat) (q : Int) :
    SellOutcome × Store × TxState :=
  if q ≤ 0 then (SellOutcome.invalidQuantity, store, ts)
  else
    match lookupBarang store ref with
    | none => (SellOutcome.itemNotFound, store, ts)
    | some b =>
      if b.jumlah_produk < q then (SellOutcome.insufficientStock, store, ts)
      else
        let remaining := b.jumlah_produk - q
        let subtotal := b.harga_jual_satuan * (q : ℚ)
        let store' :=
          if remaining = 0 then eraseBarang store ref
          else updateBarang store ref (calculate_prices { b with jumlah_produk := remaining })
        let li : ListProductTransaksi :=
          { transaksi_id := ts.tx.nomor, nama_barang := b.nama_product,
            quantity := q, subtotal := subtotal }
        let tx' : DaftarTransaksi :=
          { ts.tx with
            total := ts.tx.total + subtotal
            produk_jumlah := some (ts.tx.produk_jumlah.getD 0 + q) }
        (SellOutcome.success li, store', { tx := tx', items := ts.items ++ [li] })

/-- Repeat the same `sell` request `n` times, threading the state. -/
def sellN (ref : Nat) (q : Int) : Store × TxState → Nat → Store × TxState
  | st, 0 => st
  | st, n + 1 =>
    let r := sell st.1 st.2 ref q
    sellN ref q (r.2.1, r.2.2) n

/-- Run a sequence of `sell` requests against one StockItem reference,
threading the state; returns the outcomes in order and the final store.
Any interleaving of concurrent calls is, under the per-item mutual
exclusion mandated by §5 of the specification, equivalent to some such
sequence of atomic `sell` steps. -/
def runSells : Store → TxState → Nat → List Int → List SellOutcome × Store
  | store, _, _, [] => ([], store)
  | store, ts, ref, q :: qs =>
    let r := sell store ts ref q
    let rest := runSells r.2.1 r.2.2 ref qs
    (r.1 :: rest.1, rest.2)

/-- Total quantity committed (decremented from stock and recorded on line
items) by a list of sell outcomes. -/
def committed : List SellOutcome → Int
  | [] => 0
  | SellOutcome.success li :: rest => li.quantity + committed rest
  | SellOutcome.invalidQuantity :: rest => committed rest
  | SellOutcome.itemNotFound :: rest => committed rest
  | SellOutcome.insufficientStock :: rest => committed rest

/-- Quantity on hand recorded in storage for a reference (0 when the item
is absent). -/
def quantityAt (store : Store) (ref : Nat) : Int :=
  match lookupBarang store ref with
  | none => 0
  | some b => b.jumlah_produk

/-- Modelled from the spec: the Python-level return value of
`TransaksiProductListForm.save` as the repository's tests observe it
(`tests/test_forms.py`): the created `ListProductTransaksi` record on
success, the boolean literal `False` on failure. -/
inductive FormSaveResult where
  | lineItem (li : ListProductTransaksi)
  | falseResult
deriving DecidableEq

/-- Modelled from the spec: `TransaksiProductListForm.save(transaksi)`
(`cashier/forms.py` is not shipped; its contract is pinned by
`tests/test_forms.py::TestTransaksiProductListForm`). It runs the `sell`
step and reports the outcome through its return value only: the new line
item on success, `False` otherwise. -/
def formSave (store : Store) (ts : TxState) (ref : Nat) (q : Int) :
    FormSaveResult × Store × TxState :=
  match sell store ts ref q with
  | (SellOutcome.success li, store', ts') => (FormSaveResult.lineItem li, store', ts')
  | (_, store', ts') => (FormSaveResult.falseResult, store', ts')

/-- Modelled from the spec: registration of a new StockItem, as performed
by `tests/factories.py::DaftarBarangFactory` — the raw inputs are stored
as given (no validation; `tests/test_models.py::test_barang_with_negative_stock`
persists `jumlah_produk = -10`) and the derived fields are computed by
`calculate_prices`. -/
def createBarang (store : Store) (nomor : Nat) (user : Nat) (nama : String)
    (jumlah : Int) (unit : Int) (harga : ℚ) (laba : Int) : Store :=
  (nomor, calculate_prices
    { user := user, nama_product := nama, jumlah_produk := jumlah,
      unit_produk := unit, harga_beli_satuan := harga, laba_persen := laba,
      subtotal_harga_beli := 0, harga_jual_satuan := 0,
      subtotal_harga_jual := 0 }) :: store

/-- The derived-pricing fields of a StockItem are consistent with its
current raw inputs (§8 of the specification, with the purchase total's
own defining equation included so that staleness of the quantity is
visible). -/
def derivedConsistent (b : DaftarBarang) : Prop :=
  b.subtotal_harga_beli = (b.jumlah_produk : ℚ) * b.harga_beli_satuan ∧
  b.harga_jual_satuan = b.harga_beli_satuan * (1 + (b.laba_persen : ℚ) / 100) ∧
  b.subtotal_harga_jual =
    b.subtotal_harga_beli + (b.laba_persen : ℚ) / 100 * b.subtotal_harga_beli

instance (b : DaftarBarang) : Decidable (derivedConsistent b) := by
  unfold derivedConsistent; infer_instance

/-- Transaction-aggregate invariant: the total equals the sum of the line
items' subtotals, and `produk_jumlah` is either still null (with no line
items yet) or equals the accumulated sold quantity of the line items. -/
def txAggInvariant (ts : TxState) : Prop :=
  ts.tx.total = (ts.items.map fun li => li.subtotal).sum ∧
  ((ts.tx.produk_jumlah = none ∧ ts.items = []) ∨
    ts.tx.produk_jumlah = some (ts.items.map fun li => li.quantity).sum)

instance (ts : TxState) : Decidable (txAggInvariant ts) := by
  unfold txAggInvariant; infer_instance

/-- Concrete StockItem of Scenario A (`IndomieProductFactory`):
quantity 100, purchase price 3000, margin 20%. -/
def indomieBarang : DaftarBarang :=
  calculate_prices
    { user := 1, nama_product := "Indomie Goreng", jumlah_produk := 100,
      unit_produk := 1, harga_beli_satuan := 3000, laba_persen := 20,
      subtotal_harga_beli := 0, harga_jual_satuan := 0,
      subtotal_harga_jual := 0 }

/-- A one-item store holding `indomieBarang` under key 1. -/
def demoStore : Store := [(1, indomieBarang)]

/-- A fresh transaction as `DaftarTransaksi.objects.create(user=profile)`
leaves it (`tests/test_models.py::test_transaksi_default_values`):
`produk_jumlah` null, `total` 0, and no line items. -/
def freshTxState : TxState :=
  { tx := { nomor := 7, user := 1, produk_jumlah := none, total := 0 }, items := [] }

/-! ### Helper lemmas -/

theorem lookupBarang_eq_none_of_not_mem (store : Store) (ref : Nat)
    (h : ref ∉ store.map Prod.fst) : lookupBarang store ref = none := by
  induction store with
  | nil => rfl
  | cons p rest ih =>
    obtain ⟨k, b⟩ := p
    simp only [List.map_cons, List.mem_cons] at h
    push_neg at h
    simp only [lookupBarang, if_neg (Ne.symm h.1)]
    exact ih h.2

theorem lookupBarang_updateBarang_self (store : Store) (ref : Nat)
    (b b' : DaftarBarang) (h : lookupBarang store ref = some b) :
    lookupBarang (updateBarang store ref b') ref = some b' := by
  induction store with
  | nil => simp [lookupBarang] at h
  | cons p rest ih =>
    obtain ⟨k, bb⟩ := p
    by_cases hk : k = ref
    · simp [updateBarang, lookupBarang, hk]
    · simp only [lookupBarang, if_neg hk] at h
      simp only [updateBarang, if_neg hk, lookupBarang]
      exact ih h

theorem map_fst_updateBarang (store : Store) (ref : Nat) (b' : DaftarBarang) :
    (updateBarang store ref b').map Prod.fst = store.map Prod.fst := by
  induction store with
  | nil => rfl
  | cons p rest ih =>
    obtain ⟨k, b⟩ := p
    by_cases hk : k = ref
    · simp [updateBarang, hk]
    · simp [updateBarang, hk, ih]

theorem map_fst_eraseBarang_sublist (store : Store) (ref : Nat) :
    ((eraseBarang store ref).map Prod.fst).Sublist (store.map Prod.fst) := by
  induction store with
  | nil => simp [eraseBarang]
  | cons p rest ih =>
    obtain ⟨k, b⟩ := p
    by_cases hk : k = ref
    · simp only [eraseBarang, if_pos hk, List.map_cons]
      exact (List.Sublist.refl _).cons _
    · simp only [eraseBarang, if_neg hk, List.map_cons]
      exact ih.cons₂ _

theorem lookupBarang_eraseBarang_self (store : Store) (ref : Nat)
    (hnd : (store.map Prod.fst).Nodup) :
    lookupBarang (eraseBarang store ref) ref = none := by
  induction store with
  | nil => rfl
  | cons p rest ih =>
    obtain ⟨k, b⟩ := p
    simp only [List.map_cons, List.nodup_cons] at hnd
    by_cases hk : k = ref
    · simp only [eraseBarang, if_pos hk]
      exact lookupBarang_eq_none_of_not_mem rest ref (hk ▸ hnd.1)
    · simp only [eraseBarang, if_neg hk, lookupBarang, if_neg hk]
      exact ih hnd.2

theorem mem_updateBarang (store : Store) (ref : Nat) (b' : DaftarBarang)
    (p : Nat × DaftarBarang) (h : p ∈ updateBarang store ref b') :
    p ∈ store ∨ p.2 = b' := by
  induction store with
  | nil => simp [updateBarang] at h
  | cons q rest ih =>
    obtain ⟨k, b⟩ := q
    by_cases hk : k = ref
    · simp only [updateBarang, if_pos hk, List.mem_cons] at h
      rcases h with h | h
      · right; rw [h]
      · left; exact List.mem_cons_of_mem _ h
    · simp only [updateBarang, if_neg hk, List.mem_cons] at h
      rcases h with h | h
      · left; exact h ▸ List.mem_cons_self _ _
      · rcases ih h with h' | h'
        · left; exact List.mem_cons_of_mem _ h'
        · right; exact h'

theorem mem_eraseBarang (store : Store) (ref : Nat)
    (p : Nat × DaftarBarang) (h : p ∈ eraseBarang store ref) : p ∈ store := by
  induction store with
  | nil => simp [eraseBarang] at h
  | cons q rest ih =>
    obtain ⟨k, b⟩ := q
    by_cases hk : k = ref
    · simp only [eraseBarang, if_pos hk] at h
      exact List.mem_cons_of_mem _ h
    · simp only [eraseBarang, if_neg hk, List.mem_cons] at h
      rcases h with h | h
      · exact h ▸ List.mem_cons_self _ _
      · exact List.mem_cons_of_mem _ (ih h)

theorem calculate_prices_derivedConsistent (b : DaftarBarang) :
    derivedConsistent (calculate_prices b) := by
  unfold derivedConsistent calculate_prices
  refine ⟨rfl, rfl, ?_⟩
  ring

theorem calculate_prices_jumlah (b : DaftarBarang) :
    (calculate_prices b).jumlah_produk = b.jumlah_produk := rfl

theorem sell_nonpos (store : Store) (ts : TxState) (ref : Nat) (q : Int)
    (hq : q ≤ 0) : sell store ts ref q = (SellOutcome.invalidQuantity, store, ts) := by
  simp [sell, hq]

theorem sell_notFound (store : Store) (ts : TxState) (ref : Nat) (q : Int)
    (h0 : 0 < q) (hlk : lookupBarang store ref = none) :
    sell store ts ref q = (SellOutcome.itemNotFound, store, ts) := by
  simp [sell, not_le.2 h0, hlk]

theorem sell_insufficient (store : Store) (ts : TxState) (ref : Nat) (q : Int)
    (b : DaftarBarang) (hb : lookupBarang store ref = some b)
    (h0 : 0 < q) (hq : b.jumlah_produk < q) :
    sell store ts ref q = (SellOutcome.insufficientStock, store, ts) := by
  simp [sell, not_le.2 h0, hb, hq]

theorem sell_success (store : Store) (ts : TxState) (ref : Nat) (q : Int)
    (b : DaftarBarang) (hb : lookupBarang store ref = some b)
    (h0 : 0 < q) (hq : q ≤ b.jumlah_produk) :
    sell store ts ref q =
      (SellOutcome.success
        { transaksi_id := ts.tx.nomor, nama_barang := b.nama_product,
          quantity := q, subtotal := b.harga_jual_satuan * (q : ℚ) },
       (if b.jumlah_produk - q = 0 then eraseBarang store ref
        else updateBarang store ref
          (calculate_prices { b with jumlah_produk := b.jumlah_produk - q })),
       { tx := { ts.tx with
                  total := ts.tx.total + b.harga_jual_satuan * (q : ℚ)
                  produk_jumlah := some (ts.tx.produk_jumlah.getD 0 + q) },
         items := ts.items ++
           [{ transaksi_id := ts.tx.nomor, nama_barang := b.nama_product,
              quantity := q, subtotal := b.harga_jual_satuan * (q : ℚ) }] }) := by
  simp [sell, not_le.2 h0, hb, not_lt.2 hq]

theorem sell_state_unchanged_of_insufficient (store : Store) (ts : TxState)
    (ref : Nat) (q : Int)
    (h : (sell store ts ref q).1 = SellOutcome.insufficientStock) :
    (sell store ts ref q).2.1 = store ∧ (sell store ts ref q).2.2 = ts := by
  by_cases hq0 : q ≤ 0
  · rw [sell_nonpos store ts ref q hq0] at h
    simp at h
  · cases hlk : lookupBarang store ref with
    | none =>
      rw [sell_notFound store ts ref q (not_le.1 hq0) hlk] at h
      simp at h
    | some b =>
      by_cases hlt : b.jumlah_produk < q
      · rw [sell_insufficient store ts ref q b hlk (not_le.1 hq0) hlt]
        exact ⟨rfl, rfl⟩
      · rw [sell_success store ts ref q b hlk (not_le.1 hq0) (not_lt.1 hlt)] at h
        simp at h

theorem committed_cons (o : SellOutcome) (l : List SellOutcome) :
    committed (o :: l) = committed [o] + committed l := by
  cases o <;> simp [committed]

theorem quantityAt_of_lookup (store : Store) (ref : Nat) (b : DaftarBarang)
    (hb : lookupBarang store ref = some b) : quantityAt store ref = b.jumlah_produk := by
  simp [quantityAt, hb]

theorem sell_quantity_step (store : Store) (ts : TxState) (ref : Nat) (q : Int)
    (hnd : (store.map Prod.fst).Nodup) :
    committed [(sell store ts ref q).1] + quantityAt (sell store ts ref q).2.1 ref
        = quantityAt store ref ∧
    (0 ≤ quantityAt store ref → 0 ≤ quantityAt (sell store ts ref q).2.1 ref) ∧
    (((sell store ts ref q).2.1).map Prod.fst).Nodup := by
  by_cases hq0 : q ≤ 0
  · rw [sell_nonpos store ts ref q hq0]
    exact ⟨by simp [committed], fun h => h, hnd⟩
  · cases hlk : lookupBarang store ref with
    | none =>
      rw [sell_notFound store ts ref q (not_le.1 hq0) hlk]
      exact ⟨by simp [committed], fun h => h, hnd⟩
    | some b =>
      by_cases hlt : b.jumlah_produk < q
      · rw [sell_insufficient store ts ref q b hlk (not_le.1 hq0) hlt]
        exact ⟨by simp [committed], fun h => h, hnd⟩
      · rw [sell_success store ts ref q b hlk (not_le.1 hq0) (not_lt.1 hlt)]
        by_cases hrem : b.jumlah_produk - q = 0
        · rw [if_pos hrem]
          have h1 : lookupBarang (eraseBarang store ref) ref = none :=
            lookupBarang_eraseBarang_self store ref hnd
          dsimp only
          refine ⟨?_, ?_, ?_⟩
          · simp only [committed, quantityAt, h1, hlk]
            omega
          · intro _
            simp only [quantityAt, h1]
            omega
          · exact hnd.sublist (map_fst_eraseBarang_sublist store ref)
        · rw [if_neg hrem]
          have h1 : lookupBarang
              (updateBarang store ref
                (calculate_prices { b with jumlah_produk := b.jumlah_produk - q })) ref
              = some (calculate_prices { b with jumlah_produk := b.jumlah_produk - q }) :=
            lookupBarang_updateBarang_self store ref b _ hlk
          dsimp only
          refine ⟨?_, ?_, ?_⟩
          · simp only [committed, quantityAt, h1, hlk, calculate_prices_jumlah]
            omega
          · intro _
            simp only [quantityAt, h1, calculate_prices_jumlah]
            omega
          · rw [map_fst_updateBarang]
            exact hnd

theorem runSells_committed_le (reqs : List Int) (store : Store) (ts : TxState)
    (ref : Nat) (hnd : (store.map Prod.fst).Nodup)
    (hQ : 0 ≤ quantityAt store ref) :
    committed (runSells store ts ref reqs).1 ≤ quantityAt store ref := by
  induction reqs generalizing store ts with
  | nil => simpa [runSells, committed] using hQ
  | cons q qs ih =>
    obtain ⟨hacc, hpos, hnd'⟩ := sell_quantity_step store ts ref q hnd
    have h2 := ih (sell store ts ref q).2.1 (sell store ts ref q).2.2 hnd' (hpos hQ)
    simp only [runSells]
    rw [committed_cons]
    omega

/-! ### Further concrete fixtures -/

/-- Concrete limited-stock item (5 on hand, margin 0, purchase 5000), as in
`tests/test_forms.py::test_transaction_fails_insufficient_stock`. -/
def limitedBarang : DaftarBarang :=
  calculate_prices
    { user := 1, nama_product := "Produk Terbatas", jumlah_produk := 5,
      unit_produk := 1, harga_beli_satuan := 5000, laba_persen := 0,
      subtotal_harga_beli := 0, harga_jual_satuan := 0,
      subtotal_harga_jual := 0 }

/-- A one-item store holding `limitedBarang` under key 2. -/
def limitedStore : Store := [(2, limitedBarang)]

/-! ### Claim theorems -/

/-- Claim C1: for every successful sell of a quantity `q` with
`0 < q < ` quantity on hand, the stored quantity drops to exactly
`old − q`, the created line item's subtotal equals `q` times the sale
unit price the StockItem had before any mutation, and the owning
transaction's total increases by exactly that subtotal. -/
theorem sell_conservation (store : Store) (ts : TxState) (ref : Nat) (q : Int)
    (b : DaftarBarang) (hb : lookupBarang store ref = some b)
    (h0 : 0 < q) (hq : q < b.jumlah_produk) :
    (sell store ts ref q).1 =
      SellOutcome.success
        { transaksi_id := ts.tx.nomor, nama_barang := b.nama_product,
          quantity := q, subtotal := b.harga_jual_satuan * (q : ℚ) } ∧
    (∃ b', lookupBarang (sell store ts ref q).2.1 ref = some b' ∧
      b'.jumlah_produk = b.jumlah_produk - q) ∧
    (sell store ts ref q).2.2.tx.total =
      ts.tx.total + b.harga_jual_satuan * (q : ℚ) ∧
    (sell store ts ref q).2.2.items = ts.items ++
      [{ transaksi_id := ts.tx.nomor, nama_barang := b.nama_product,
         quantity := q, subtotal := b.harga_jual_satuan * (q : ℚ) }] := by
  have hle : q ≤ b.jumlah_produk := le_of_lt hq
  have hrem : b.jumlah_produk - q ≠ 0 := by omega
  rw [sell_success store ts ref q b hb h0 hle, if_neg hrem]
  dsimp only
  exact ⟨rfl,
    ⟨calculate_prices { b with jumlah_produk := b.jumlah_produk - q },
      lookupBarang_updateBarang_self store ref b _ hb,
      calculate_prices_jumlah _⟩,
    rfl, rfl⟩

/-- Witness for C1 at the Scenario-B input: item with 100 on hand and sale
unit price 3600, sell 10. -/
theorem sell_conservation_witness :
    lookupBarang demoStore 1 = some indomieBarang ∧ (0 : Int) < 10 ∧
    (10 : Int) < indomieBarang.jumlah_produk ∧
    (sell demoStore freshTxState 1 10).2.2.tx.total =
      freshTxState.tx.total + indomieBarang.harga_jual_satuan * ((10 : Int) : ℚ) :=
  ⟨rfl, by decide, by decide,
    (sell_conservation demoStore freshTxState 1 10 indomieBarang rfl
      (by decide) (by decide)).2.2.1⟩

/-- Claim C2: a sell requesting strictly more than the quantity on hand
returns `InsufficientStock` and mutates nothing, and any number `N ≥ 0`
of repeated such attempts leaves the store and the transaction state
exactly as before. -/
theorem sell_insufficient_idempotent (store : Store) (ts : TxState) (ref : Nat)
    (q : Int) (b : DaftarBarang) (N : Nat)
    (hb : lookupBarang store ref = some b)
    (hQ : 0 ≤ b.jumlah_produk) (hq : b.jumlah_produk < q) :
    sell store ts ref q = (SellOutcome.insufficientStock, store, ts) ∧
    sellN ref q (store, ts) N = (store, ts) := by
  have h0 : 0 < q := lt_of_le_of_lt hQ hq
  have h1 := sell_insufficient store ts ref q b hb h0 hq
  refine ⟨h1, ?_⟩
  induction N with
  | zero => rfl
  | succ n ih =>
    simp only [sellN, h1]
    exact ih

/-- Witness for C2 at the Scenario-C input: 5 on hand, request 10, three
repeated attempts. -/
theorem sell_insufficient_idempotent_witness :
    lookupBarang limitedStore 2 = some limitedBarang ∧
    (0 : Int) ≤ limitedBarang.jumlah_produk ∧ limitedBarang.jumlah_produk < 10 ∧
    (sell limitedStore freshTxState 2 10 =
      (SellOutcome.insufficientStock, limitedStore, freshTxState) ∧
     sellN 2 10 (limitedStore, freshTxState) 3 = (limitedStore, freshTxState)) :=
  ⟨rfl, by decide, by decide,
    sell_insufficient_idempotent limitedStore freshTxState 2 10 limitedBarang 3
      rfl (by decide) (by decide)⟩

/-- Claim C3: under the per-item mutual exclusion the specification
mandates, any interleaving of concurrent sell calls is a sequence of
atomic `sell` steps; for any such sequence the total committed quantity
never exceeds the quantity initially on hand, and every call that returns
`InsufficientStock` has zero side effects. -/
theorem concurrent_sells_no_oversell (store : Store) (ts : TxState) (ref : Nat)
    (reqs : List Int) (hnd : (store.map Prod.fst).Nodup)
    (hQ : 0 ≤ quantityAt store ref) :
    committed (runSells store ts ref reqs).1 ≤ quantityAt store ref ∧
    ∀ (s : Store) (t : TxState) (q : Int),
      (sell s t ref q).1 = SellOutcome.insufficientStock →
        (sell s t ref q).2.1 = s ∧ (sell s t ref q).2.2 = t :=
  ⟨runSells_committed_le reqs store ts ref hnd hQ,
   fun s t q h => sell_state_unchanged_of_insufficient s t ref q h⟩

/-- Witness for C3: two calls of 10 each against 15 on hand. -/
theorem concurrent_sells_no_oversell_witness :
    (List.map Prod.fst demoStore).Nodup ∧ (0 : Int) ≤ quantityAt demoStore 1 ∧
    committed (runSells demoStore freshTxState 1 [60, 60]).1 ≤ quantityAt demoStore 1 :=
  ⟨by decide, by decide,
    (concurrent_sells_no_oversell demoStore freshTxState 1 [60, 60]
      (by decide) (by decide)).1⟩

/-- Claim C4: a sell of exactly the quantity on hand succeeds, deletes the
StockItem from storage, and still increases the transaction's total by the
quantity times the sale unit price. -/
theorem sell_depletes_and_deletes (store : Store) (ts : TxState) (ref : Nat)
    (q : Int) (b : DaftarBarang)
    (hb : lookupBarang store ref = some b)
    (hnd : (store.map Prod.fst).Nodup)
    (h0 : 0 < q) (heq : q = b.jumlah_produk) :
    (sell store ts ref q).1 =
      SellOutcome.success
        { transaksi_id := ts.tx.nomor, nama_barang := b.nama_product,
          quantity := q, subtotal := b.harga_jual_satuan * (q : ℚ) } ∧
    lookupBarang (sell store ts ref q).2.1 ref = none ∧
    (sell store ts ref q).2.2.tx.total =
      ts.tx.total + b.harga_jual_satuan * (q : ℚ) := by
  have hle : q ≤ b.jumlah_produk := le_of_eq heq
  have hrem : b.jumlah_produk - q = 0 := by omega
  rw [sell_success store ts ref q b hb h0 hle, if_pos hrem]
  dsimp only
  exact ⟨rfl, lookupBarang_eraseBarang_self store ref hnd, rfl⟩

/-- Witness for C4 at the Scenario-D shape: 5 on hand, sell 5. -/
theorem sell_depletes_and_deletes_witness :
    lookupBarang limitedStore 2 = some limitedBarang ∧
    (0 : Int) < 5 ∧ (5 : Int) = limitedBarang.jumlah_produk ∧
    lookupBarang (sell limitedStore freshTxState 2 5).2.1 2 = none :=
  ⟨rfl, by decide, by decide,
    (sell_depletes_and_deletes limitedStore freshTxState 2 5 limitedBarang rfl
      (by decide) (by decide) (by decide)).2.1⟩

/-- Claim C5: the derived-pricing computation is a pure function of the raw
inputs satisfying the three defining equations; at quantity 100, purchase
price 3000 and margin 20 it yields sale unit price 3600 and sale total
360000, and at margin 0 the sale price equals the purchase price. -/
theorem calculate_prices_pure_spec :
    (∀ b : DaftarBarang,
      (calculate_prices b).subtotal_harga_beli =
        (b.jumlah_produk : ℚ) * b.harga_beli_satuan ∧
      (calculate_prices b).harga_jual_satuan =
        b.harga_beli_satuan * (1 + (b.laba_persen : ℚ) / 100) ∧
      (calculate_prices b).subtotal_harga_jual =
        (calculate_prices b).subtotal_harga_beli +
          (b.laba_persen : ℚ) / 100 * (calculate_prices b).subtotal_harga_beli) ∧
    indomieBarang.harga_jual_satuan = 3600 ∧
    indomieBarang.subtotal_harga_jual = 360000 ∧
    (∀ b : DaftarBarang,
      (calculate_prices { b with laba_persen := 0 }).harga_jual_satuan =
        b.harga_beli_satuan) := by
  refine ⟨fun b => ⟨rfl, rfl, ?_⟩, by norm_num [indomieBarang, calculate_prices],
    by norm_num [indomieBarang, calculate_prices], fun b => ?_⟩
  · simp only [calculate_prices]
    ring
  · simp [calculate_prices]

/-- Claim C6: a sell call with a zero or negative requested quantity is
rejected as `InvalidQuantity` with no mutation at all, and this rejection
precedes item resolution and the availability check: it holds for every
store, including stores in which the reference does not resolve. -/
theorem sell_rejects_nonpositive_first (store : Store) (ts : TxState)
    (ref : Nat) (q : Int) (hq : q ≤ 0) :
    sell store ts ref q = (SellOutcome.invalidQuantity, store, ts) :=
  sell_nonpos store ts ref q hq

/-- Witness for C6: quantity 0 against an empty store (the reference does
not even resolve, yet the outcome is `InvalidQuantity`, not `ItemNotFound`). -/
theorem sell_rejects_nonpositive_first_witness :
    (0 : Int) ≤ 0 ∧
    sell [] freshTxState 99 0 = (SellOutcome.invalidQuantity, [], freshTxState) :=
  ⟨by decide, sell_rejects_nonpositive_first [] freshTxState 99 0 (by decide)⟩

/-- Claim C7 (failing input): registering a StockItem with
`jumlah_produk = -10`, exactly as
`tests/test_models.py::test_barang_with_negative_stock` does, persists an
item whose quantity on hand is negative — the storage invariant the claim
asserts does not hold for all reachable states. -/
theorem negative_stock_persists :
    (lookupBarang (createBarang [] 11 1 "Produk Uji" (-10) 1 1000 10) 11).isSome
      = true ∧
    quantityAt (createBarang [] 11 1 "Produk Uji" (-10) 1 1000 10) 11 = -10 ∧
    quantityAt (createBarang [] 11 1 "Produk Uji" (-10) 1 1000 10) 11 < 0 := by
  decide

/-- Claim C8 (counterexample): after one successful sell of quantity 10
into a fresh transaction, the transaction has exactly one line item but
its `produk_jumlah` field is 10, not 1 — the aggregate is not the number
of line items (the behaviour
`tests/test_views.py::test_cart_post_successful_transaction` pins). -/
theorem produk_jumlah_not_line_item_count :
    (sell demoStore freshTxState 1 10).2.2.tx.produk_jumlah = some 10 ∧
    (sell demoStore freshTxState 1 10).2.2.items.length = 1 ∧
    (sell demoStore freshTxState 1 10).2.2.tx.produk_jumlah ≠
      some ((sell demoStore freshTxState 1 10).2.2.items.length : Int) := by
  decide

/-- Claim C8 (amended): a fresh transaction starts with `produk_jumlah`
null and total 0, and every `sell` call preserves the aggregate
invariant — the total equals the sum of the line items' subtotals, and
once non-null `produk_jumlah` equals the accumulated sold quantity (the
sum of the line items' quantities). -/
theorem transaction_aggregate_invariant :
    txAggInvariant freshTxState ∧
    freshTxState.tx.produk_jumlah = none ∧ freshTxState.tx.total = 0 ∧
    ∀ (store : Store) (ts : TxState) (ref : Nat) (q : Int),
      txAggInvariant ts → txAggInvariant (sell store ts ref q).2.2 := by
  refine ⟨by decide, rfl, rfl, ?_⟩
  intro store ts ref q h
  by_cases hq0 : q ≤ 0
  · rw [sell_nonpos store ts ref q hq0]
    exact h
  · cases hlk : lookupBarang store ref with
    | none =>
      rw [sell_notFound store ts ref q (not_le.1 hq0) hlk]
      exact h
    | some b =>
      by_cases hlt : b.jumlah_produk < q
      · rw [sell_insufficient store ts ref q b hlk (not_le.1 hq0) hlt]
        exact h
      · rw [sell_success store ts ref q b hlk (not_le.1 hq0) (not_lt.1 hlt)]
        obtain ⟨htot, hcnt⟩ := h
        unfold txAggInvariant at *
        dsimp only
        constructor
        · simp only [List.map_append, List.sum_append, List.map_cons,
            List.map_nil, List.sum_cons, List.sum_nil, add_zero, htot]
        · right
          rcases hcnt with ⟨hnone, hnil⟩ | hsome
          · rw [hnone, hnil]
            simp
          · rw [hsome]
            simp

/-- Witness for C8 (amended): the invariant holds for the fresh transaction
and is preserved by a concrete successful sell of quantity 10. -/
theorem transaction_aggregate_invariant_witness :
    txAggInvariant freshTxState ∧
    txAggInvariant (sell demoStore freshTxState 1 10).2.2 :=
  ⟨by decide,
    transaction_aggregate_invariant.2.2.2 demoStore freshTxState 1 10 (by decide)⟩

/-- Every item of the demo store has consistent derived pricing fields. -/
theorem demoStore_derivedConsistent : ∀ p ∈ demoStore, derivedConsistent p.2 := by
  intro p hp
  simp only [demoStore, List.mem_singleton] at hp
  rw [hp]
  exact calculate_prices_derivedConsistent _

/-- Claim C9: if every persisted StockItem has derived pricing fields
consistent with its current raw inputs, then after any `sell` call —
including a successful partial sell, which recomputes them from the new
quantity — every persisted StockItem still does; the fields are never
left stale. -/
theorem sell_preserves_derivedConsistent (store : Store) (ts : TxState)
    (ref : Nat) (q : Int) (h : ∀ p ∈ store, derivedConsistent p.2) :
    ∀ p ∈ (sell store ts ref q).2.1, derivedConsistent p.2 := by
  by_cases hq0 : q ≤ 0
  · rw [sell_nonpos store ts ref q hq0]
    exact h
  · cases hlk : lookupBarang store ref with
    | none =>
      rw [sell_notFound store ts ref q (not_le.1 hq0) hlk]
      exact h
    | some b =>
      by_cases hlt : b.jumlah_produk < q
      · rw [sell_insufficient store ts ref q b hlk (not_le.1 hq0) hlt]
        exact h
      · rw [sell_success store ts ref q b hlk (not_le.1 hq0) (not_lt.1 hlt)]
        dsimp only
        by_cases hrem : b.jumlah_produk - q = 0
        · rw [if_pos hrem]
          intro p hp
          exact h p (mem_eraseBarang store ref p hp)
        · rw [if_neg hrem]
          intro p hp
          rcases mem_updateBarang store ref _ p hp with hmem | heq
          · exact h p hmem
          · rw [heq]
            exact calculate_prices_derivedConsistent _

/-- Witness for C9: the demo store before and after a partial sell of 10. -/
theorem sell_preserves_derivedConsistent_witness :
    (∀ p ∈ demoStore, derivedConsistent p.2) ∧
    ∀ p ∈ (sell demoStore freshTxState 1 10).2.1, derivedConsistent p.2 :=
  ⟨demoStore_derivedConsistent,
    sell_preserves_derivedConsistent demoStore freshTxState 1 10
      demoStore_derivedConsistent⟩

theorem formSave_of_success (store : Store) (ts : TxState) (ref : Nat) (q : Int)
    (li : ListProductTransaksi) (store' : Store) (ts' : TxState)
    (h : sell store ts ref q = (SellOutcome.success li, store', ts')) :
    formSave store ts ref q = (FormSaveResult.lineItem li, store', ts') := by
  unfold formSave
  rw [h]

theorem formSave_of_insufficient (store : Store) (ts : TxState) (ref : Nat)
    (q : Int) (store' : Store) (ts' : TxState)
    (h : sell store ts ref q = (SellOutcome.insufficientStock, store', ts')) :
    formSave store ts ref q = (FormSaveResult.falseResult, store', ts') := by
  unfold formSave
  rw [h]

/-- Claim C10: the form-level save signals its outcome entirely through its
return value: on success it returns the created line item carrying the
sold quantity and the computed subtotal, on an availability failure it
returns the boolean `False` with no mutation, and the result equals
`False` exactly when the sell did not succeed. -/
theorem formSave_return_protocol (store : Store) (ts : TxState) (ref : Nat)
    (q : Int) (b : DaftarBarang)
    (hb : lookupBarang store ref = some b) (h0 : 0 < q) :
    (q ≤ b.jumlah_produk →
      (formSave store ts ref q).1 =
        FormSaveResult.lineItem
          { transaksi_id := ts.tx.nomor, nama_barang := b.nama_product,
            quantity := q, subtotal := b.harga_jual_satuan * (q : ℚ) }) ∧
    (b.jumlah_produk < q →
      formSave store ts ref q = (FormSaveResult.falseResult, store, ts)) ∧
    ((formSave store ts ref q).1 = FormSaveResult.falseResult ↔
      ∀ li, (sell store ts ref q).1 ≠ SellOutcome.success li) := by
  by_cases hle : q ≤ b.jumlah_produk
  · have hs := sell_success store ts ref q b hb h0 hle
    have hf := formSave_of_success store ts ref q _ _ _ hs
    refine ⟨fun _ => ?_, fun hlt => absurd hle (not_le.2 hlt), ?_⟩
    · rw [hf]
    · constructor
      · intro hfalse
        rw [hf] at hfalse
        simp at hfalse
      · intro hns
        exact absurd (by rw [hs] :
            (sell store ts ref q).1 = SellOutcome.success
              { transaksi_id := ts.tx.nomor, nama_barang := b.nama_product,
                quantity := q, subtotal := b.harga_jual_satuan * (q : ℚ) })
          (hns _)
  · have hlt := not_le.1 hle
    have hs := sell_insufficient store ts ref q b hb h0 hlt
    have hf := formSave_of_insufficient store ts ref q _ _ hs
    refine ⟨fun h2 => absurd h2 hle, fun _ => hf, ?_⟩
    constructor
    · intro _ li hsucc
      rw [hs] at hsucc
      simp at hsucc
    · intro _
      rw [hf]

/-- Witness for C10: a successful save of quantity 10 from the demo store
returns the line item record. -/
theorem formSave_return_protocol_witness :
    lookupBarang demoStore 1 = some indomieBarang ∧ (0 : Int) < 10 ∧
    (formSave demoStore freshTxState 1 10).1 =
      FormSaveResult.lineItem
        { transaksi_id := freshTxState.tx.nomor,
          nama_barang := indomieBarang.nama_product,
          quantity := 10,
          subtotal := indomieBarang.harga_jual_satuan * ((10 : Int) : ℚ) } :=
  ⟨rfl, by decide,
    (formSave_return_protocol demoStore freshTxState 1 10 indomieBarang rfl
      (by decide)).1 (by decide)⟩
